import Mathlib

/-!
Verification of the window-tiler snap-layout tree
(source: src/unnamed/part_001, the main `App` component, and src/src/helpers.ts).

JavaScript numbers are modelled as rationals (ℚ): every arithmetic operation
performed by the source on window geometry (addition, subtraction, halving,
absolute value, comparisons) is exact on binary64 floats for the magnitudes
involved, and ℚ reproduces it exactly.
-/

namespace WindowTiler

/-- A rectangle `{x, y, width, height}` in absolute pixel coordinates
(source: the `bounds` record of `SnapNode`, `WindowConfig` in helpers.ts). -/
structure Rect where
  x : ℚ
  y : ℚ
  width : ℚ
  height : ℚ
  deriving DecidableEq

/-- `WindowData` from the source: immutable identity and presentation payload. -/
structure WindowData where
  id : String
  color : String
  title : String
  deriving DecidableEq

/-- Split direction of a container (source: the `direction` field,
`"horizontal" | "vertical"`). -/
inductive Direction where
  | horizontal
  | vertical
  deriving DecidableEq

/-- A snap side (source: the `side` field of `SnapIndicator`,
`"top" | "bottom" | "left" | "right"`). -/
inductive Side where
  | top
  | bottom
  | left
  | right
  deriving DecidableEq

/-- `SnapNode` from the source: a tagged union of a window leaf and a
container holding a list of children.  The source stores the tag in `type`
and the variant data in the optional `window` / `container` fields; the
well-typed states of that record are exactly these two constructors.
`splitFrac` is the source's `splitRatio` field (always `0.5`). -/
inductive SnapNode where
  | window (id : String) (win : WindowData) (bounds : Rect)
  | container (id : String) (dir : Direction) (splitFrac : ℚ)
      (children : List SnapNode) (bounds : Rect)

/-- `node.id` in the source. -/
def SnapNode.nodeId : SnapNode → String
  | .window i _ _ => i
  | .container i _ _ _ _ => i

/-- `node.bounds` in the source. -/
def SnapNode.bounds : SnapNode → Rect
  | .window _ _ b => b
  | .container _ _ _ _ b => b

/-- `{...node, bounds: r}` in the source: replace a node's own bounds field,
leaving everything else (children included) untouched. -/
def SnapNode.setBounds : SnapNode → Rect → SnapNode
  | .window i w _, r => .window i w r
  | .container i d s c _, r => .container i d s c r

-- Constants from src/unnamed/part_001 lines 51-55.
def MIN_WIDTH : ℚ := 200
def MIN_HEIGHT : ℚ := 150
def SNAP_THRESHOLD : ℚ := 30
def DRAG_OUT_THRESHOLD : ℚ := 50
def HEADER_HEIGHT : ℚ := 40

/-- `getWindowConfig` from src/src/helpers.ts lines 25-62.  The source
switches on a position string; the four values actually passed are the four
sides, modelled by `Side` (the `default` branch is unreachable for them).
Only `width` and `height` of the container rectangle are read. -/
def getWindowConfig (position : Side) (containerRect : Rect) : Rect :=
  match position with
  | .left => ⟨0, 0, containerRect.width / 2, containerRect.height⟩
  | .right => ⟨containerRect.width / 2, 0, containerRect.width / 2, containerRect.height⟩
  | .top => ⟨0, 0, containerRect.width, containerRect.height / 2⟩
  | .bottom => ⟨0, containerRect.height / 2, containerRect.width, containerRect.height / 2⟩

mutual

/-- `findNodeById` from src/unnamed/part_001 lines 116-128 (non-null case;
the null case is handled by `findNodeByIdTop`). -/
def findNodeById (node : SnapNode) (i : String) : Option SnapNode :=
  if node.nodeId = i then some node
  else
    match node with
    | .window _ _ _ => none
    | .container _ _ _ children _ => findInChildren children i

/-- The `for (const child of node.container.children)` loop of `findNodeById`:
return the first hit among the children. -/
def findInChildren (children : List SnapNode) (i : String) : Option SnapNode :=
  match children with
  | [] => none
  | c :: cs =>
    match findNodeById c i with
    | some found => some found
    | none => findInChildren cs i

end

/-- `findNodeById` with the source's nullable argument. -/
def findNodeByIdTop (node : Option SnapNode) (i : String) : Option SnapNode :=
  match node with
  | none => none
  | some n => findNodeById n i

mutual

/-- `removeNodeById` from src/unnamed/part_001 lines 130-172 (non-null case).
A container filters out children whose `id` matches, recursively removes in
the rest and drops the ones that became null; an empty result deletes the
container, a singleton is promoted carrying the container's bounds
(lines 148-159), otherwise the container is rebuilt.  A window is removed
iff its id matches (line 171). -/
def removeNodeById (node : SnapNode) (i : String) : Option SnapNode :=
  match node with
  | .container nid dir r children bounds =>
    match removeChildren children i with
    | [] => none
    | [remaining] => some (remaining.setBounds bounds)
    | c1 :: c2 :: rest => some (.container nid dir r (c1 :: c2 :: rest) bounds)
  | .window nid w b => if nid = i then none else some (.window nid w b)

/-- The child pass of `removeNodeById` (lines 137-144): the source's
`filter (child.id !== id)`, then `map(removeNodeById)`, then
`filter(Boolean)` — fused into one order-preserving pass. -/
def removeChildren (children : List SnapNode) (i : String) : List SnapNode :=
  match children with
  | [] => []
  | c :: cs =>
    if c.nodeId = i then removeChildren cs i
    else
      match removeNodeById c i with
      | some c1 => c1 :: removeChildren cs i
      | none => removeChildren cs i

end

/-- `removeNodeById` with the source's nullable argument
(`if (!node) return null`). -/
def removeNodeByIdTop (node : Option SnapNode) (i : String) : Option SnapNode :=
  match node with
  | none => none
  | some n => removeNodeById n i

/-- The direction expression used at lines 344-347 and 415-416 of the source:
`side === "left" || side === "right" ? "horizontal" : "vertical"`. -/
def sideDirection (side : Side) : Direction :=
  if side = Side.left ∨ side = Side.right then .horizontal else .vertical

/-- The first-child test used at lines 348-349 and 417 of the source:
`side === "left" || side === "top"`. -/
def sideIsFirst (side : Side) : Prop :=
  side = Side.left ∨ side = Side.top

instance (side : Side) : Decidable (sideIsFirst side) := by
  unfold sideIsFirst; infer_instance

/-- The rectangle assigned to `children[0]` in `snapToExistingWindow`
(source lines 448-454 for horizontal, 462-468 for vertical), as a function of
the replaced node's bounds. -/
def child0Rect (dir : Direction) (b : Rect) : Rect :=
  match dir with
  | .horizontal => ⟨b.x, b.y, b.width / 2, b.height⟩
  | .vertical => ⟨b.x, b.y, b.width, b.height / 2⟩

/-- The rectangle assigned to `children[1]` in `snapToExistingWindow`
(source lines 456-461 for horizontal, 470-475 for vertical). -/
def child1Rect (dir : Direction) (b : Rect) : Rect :=
  match dir with
  | .horizontal => ⟨b.x + b.width / 2, b.y, b.width / 2, b.height⟩
  | .vertical => ⟨b.x, b.y + b.height / 2, b.width, b.height / 2⟩

mutual

/-- `snapToExistingWindow` from src/unnamed/part_001 lines 405-494 (non-null
case).  When the node is a window whose id matches `targetId` it is replaced
by a fresh container (id `freshId`, standing for the source's random
`getId()`) whose two children are the new window and the original window,
ordered by `isNewWindowFirst`, with `children[0]` / `children[1]` bounds
assigned per lines 448-476; otherwise containers recurse into their children
and anything else is returned unchanged.  The recursion never returns null
on a non-null node, so the source's `|| child` fallback never fires. -/
def snapToExistingWindow (freshId targetId : String) (newWindow : WindowData)
    (side : Side) (layout : SnapNode) : SnapNode :=
  match layout with
  | .window lid w b =>
    if lid = targetId then
      let direction := sideDirection side
      let newWindowNode := SnapNode.window newWindow.id newWindow
        (if sideIsFirst side then child0Rect direction b else child1Rect direction b)
      let existingWindowNode := SnapNode.window lid w
        (if sideIsFirst side then child1Rect direction b else child0Rect direction b)
      SnapNode.container freshId direction (1/2)
        (if sideIsFirst side then [newWindowNode, existingWindowNode]
         else [existingWindowNode, newWindowNode]) b
    else .window lid w b
  | .container lid dir r children b =>
    .container lid dir r (snapChildren freshId targetId newWindow side children) b

/-- The `children.map(child => snapToExistingWindow(child, …) || child)` pass
of `snapToExistingWindow` (source lines 485-488). -/
def snapChildren (freshId targetId : String) (newWindow : WindowData)
    (side : Side) (children : List SnapNode) : List SnapNode :=
  match children with
  | [] => []
  | c :: cs =>
    snapToExistingWindow freshId targetId newWindow side c
      :: snapChildren freshId targetId newWindow side cs

end

/-- `snapToExistingWindow` with the source's nullable argument
(`if (!layout) return null`). -/
def snapToExistingWindowTop (freshId targetId : String) (newWindow : WindowData)
    (side : Side) (layout : Option SnapNode) : Option SnapNode :=
  match layout with
  | none => none
  | some l => some (snapToExistingWindow freshId targetId newWindow side l)

/-- The screen-edge branch of `executeSnap` (source lines 328-401): the
spec's `insertAtEdge`.  On a null tree the new window becomes the sole root
with bounds `getWindowConfig side containerRect` (line 399).  Otherwise a
fresh container (id `freshId` for the source's `getId()`) wraps the new
window and the whole existing tree, ordered by `isFirstChild`
(lines 348-358), with container bounds the full viewport (lines 361-366) and
`children[0]` / `children[1]` bounds overwritten by `getWindowConfig` of the
left/right or top/bottom halves (lines 370-394). -/
def insertAtEdge (freshId : String) (tree : Option SnapNode) (wd : WindowData)
    (side : Side) (containerRect : Rect) : SnapNode :=
  match tree with
  | none => SnapNode.window wd.id wd (getWindowConfig side containerRect)
  | some snappedLayout =>
    let direction := sideDirection side
    let firstRect := match direction with
      | .horizontal => getWindowConfig .left containerRect
      | .vertical => getWindowConfig .top containerRect
    let secondRect := match direction with
      | .horizontal => getWindowConfig .right containerRect
      | .vertical => getWindowConfig .bottom containerRect
    let newWindowNode := SnapNode.window wd.id wd
      (if sideIsFirst side then firstRect else secondRect)
    let wrapped := snappedLayout.setBounds
      (if sideIsFirst side then secondRect else firstRect)
    SnapNode.container freshId direction (1/2)
      (if sideIsFirst side then [newWindowNode, wrapped] else [wrapped, newWindowNode])
      ⟨0, 0, containerRect.width, containerRect.height⟩

/-- `SnapIndicator` from the source (lines 41-48). -/
structure SnapIndicator where
  x : ℚ
  y : ℚ
  width : ℚ
  height : ℚ
  side : Side
  targetNodeId : Option String
  deriving DecidableEq

/-- `executeSnap` from src/unnamed/part_001 lines 313-403 as a function of
the current tree: with a `targetNodeId` it is `snapToExistingWindow`,
otherwise the screen-edge branch `insertAtEdge`.  In both branches of the
source the indicator's geometry fields are overwritten before the tree is
stored, so only `side` and `targetNodeId` matter. -/
def executeSnap (freshId : String) (containerRect : Rect) (wd : WindowData)
    (ind : SnapIndicator) (tree : Option SnapNode) : Option SnapNode :=
  match ind.targetNodeId with
  | some tid => snapToExistingWindowTop freshId tid wd ind.side tree
  | none => some (insertAtEdge freshId tree wd ind.side containerRect)

mutual

/-- `findSnapTargetInNode` from src/unnamed/part_001 lines 236-310.  If the
pointer lies inside the node's bounds: a window leaf picks its dominant axis
(`isWiderThanTall = width > height`, line 255) and offers top/bottom
(wider-than-tall) or left/right (otherwise) half-of-leaf indicators when the
pointer is within `SNAP_THRESHOLD` of the near or far edge along that axis,
tagged `targetNodeId = node.id`; a container recurses into its children. -/
def findSnapTargetInNode (node : SnapNode) (mouseX mouseY : ℚ) :
    Option SnapIndicator :=
  if mouseX ≥ node.bounds.x ∧ mouseX ≤ node.bounds.x + node.bounds.width
      ∧ mouseY ≥ node.bounds.y ∧ mouseY ≤ node.bounds.y + node.bounds.height then
    match node with
    | .window nid _ b =>
      let relativeX := mouseX - b.x
      let relativeY := mouseY - b.y
      if b.width > b.height then
        if relativeY ≤ SNAP_THRESHOLD then
          some ⟨b.x, b.y, b.width, b.height / 2, .top, some nid⟩
        else if relativeY ≥ b.height - SNAP_THRESHOLD then
          some ⟨b.x, b.y + b.height / 2, b.width, b.height / 2, .bottom, some nid⟩
        else none
      else
        if relativeX ≤ SNAP_THRESHOLD then
          some ⟨b.x, b.y, b.width / 2, b.height, .left, some nid⟩
        else if relativeX ≥ b.width - SNAP_THRESHOLD then
          some ⟨b.x + b.width / 2, b.y, b.width / 2, b.height, .right, some nid⟩
        else none
    | .container _ _ _ children _ => findSnapInChildren children mouseX mouseY
  else none

/-- The `for (const child of node.container.children)` loop of
`findSnapTargetInNode` (source lines 302-305): first hit wins. -/
def findSnapInChildren (children : List SnapNode) (mouseX mouseY : ℚ) :
    Option SnapIndicator :=
  match children with
  | [] => none
  | c :: cs =>
    match findSnapTargetInNode c mouseX mouseY with
    | some result => some result
    | none => findSnapInChildren cs mouseX mouseY

end

/-- `getSnapTarget` from src/unnamed/part_001 lines 179-234: the four screen
edges are checked first (left, right, top, bottom, in that order) and return
half-viewport indicators with no `targetNodeId`; only then is the snapped
tree searched. -/
def getSnapTarget (mouseX mouseY : ℚ) (containerRect : Rect)
    (snappedLayout : Option SnapNode) : Option SnapIndicator :=
  if mouseX ≤ SNAP_THRESHOLD then
    some ⟨0, 0, containerRect.width / 2, containerRect.height, .left, none⟩
  else if mouseX ≥ containerRect.width - SNAP_THRESHOLD then
    some ⟨containerRect.width / 2, 0, containerRect.width / 2, containerRect.height,
      .right, none⟩
  else if mouseY ≤ SNAP_THRESHOLD then
    some ⟨0, 0, containerRect.width, containerRect.height / 2, .top, none⟩
  else if mouseY ≥ containerRect.height - SNAP_THRESHOLD then
    some ⟨0, containerRect.height / 2, containerRect.width, containerRect.height / 2,
      .bottom, none⟩
  else
    match snappedLayout with
    | some l => findSnapTargetInNode l mouseX mouseY
    | none => none

/-- `FloatingWindow` from the source (lines 34-39): payload plus position
and size. -/
structure FloatingWindow where
  id : String
  color : String
  title : String
  x : ℚ
  y : ℚ
  width : ℚ
  height : ℚ
  deriving DecidableEq

/-- The `type` tag of `draggedWindow` (`"floating" | "snapped"`). -/
inductive DragKind where
  | floating
  | snapped
  deriving DecidableEq

/-- The `draggedWindow` state record (source lines 74-78). -/
structure DraggedWindow where
  id : String
  kind : DragKind
  offsetX : ℚ
  offsetY : ℚ
  deriving DecidableEq

/-- The component state read and written by the pointer handlers:
`floatingWindows`, `snappedLayout`, `draggedWindow`, `snapIndicator`. -/
structure AppState where
  floatingWindows : List FloatingWindow
  snappedLayout : Option SnapNode
  draggedWindow : Option DraggedWindow
  snapIndicator : Option SnapIndicator

/-- `handleMouseMove` from src/unnamed/part_001 lines 524-573, as a pure
state transformer on `AppState` given the pointer position `(clientX,
clientY)` and the container rectangle.  The floating branch moves the
dragged floating window and refreshes the indicator; the snapped branch
measures `|clientX - offset.x| + |clientY - offset.y|` against
`DRAG_OUT_THRESHOLD` and, past it, appends a floating copy of the dragged
node's payload at `(clientX - MIN_WIDTH/2, clientY - HEADER_HEIGHT/2)` of
size `MIN_WIDTH × MIN_HEIGHT`, removes the node from the tree, and turns the
drag into a floating drag with offset `(MIN_WIDTH/2, HEADER_HEIGHT/2)`. -/
def handleMouseMove (clientX clientY : ℚ) (containerRect : Rect)
    (s : AppState) : AppState :=
  match s.draggedWindow with
  | none => s
  | some dw =>
    if dw.kind = DragKind.floating then
      let newX := clientX - dw.offsetX
      let newY := clientY - dw.offsetY
      let moved := s.floatingWindows.map (fun w =>
        if w.id = dw.id then { w with x := newX, y := newY } else w)
      let snapTarget := getSnapTarget clientX clientY containerRect s.snappedLayout
      { s with floatingWindows := moved, snapIndicator := snapTarget }
    else
      let dragDistance := |clientX - dw.offsetX| + |clientY - dw.offsetY|
      if dragDistance > DRAG_OUT_THRESHOLD then
        match findNodeByIdTop s.snappedLayout dw.id with
        | some (SnapNode.window _ w _) =>
          let newFloatingWindow : FloatingWindow :=
            ⟨w.id, w.color, w.title, clientX - MIN_WIDTH / 2,
              clientY - HEADER_HEIGHT / 2, MIN_WIDTH, MIN_HEIGHT⟩
          { s with
            floatingWindows := s.floatingWindows ++ [newFloatingWindow],
            snappedLayout := removeNodeByIdTop s.snappedLayout dw.id,
            draggedWindow := some ⟨dw.id, .floating, MIN_WIDTH / 2, HEADER_HEIGHT / 2⟩ }
        | _ => s
      else s

/-- `handleMouseUp` from src/unnamed/part_001 lines 575-595: with an active
indicator and a floating drag whose window is in the floating set, it calls
`executeSnap` and unconditionally deletes the window from the floating set;
in every case it then clears `draggedWindow` and `snapIndicator`.  `freshId`
stands for the `getId()` call a snap may perform. -/
def handleMouseUp (freshId : String) (containerRect : Rect) (s : AppState) :
    AppState :=
  let s1 :=
    match s.snapIndicator, s.draggedWindow with
    | some ind, some dw =>
      if dw.kind = DragKind.floating then
        match s.floatingWindows.find? (fun (w : FloatingWindow) => w.id == dw.id) with
        | some fw =>
          let wd : WindowData := ⟨fw.id, fw.color, fw.title⟩
          { s with
            snappedLayout := executeSnap freshId containerRect wd ind s.snappedLayout,
            floatingWindows :=
              s.floatingWindows.filter (fun (w : FloatingWindow) => w.id != dw.id) }
        | none => s
      else s
    | _, _ => s
  { s1 with draggedWindow := none, snapIndicator := none }

/-!
Spec-side definitions: predicates and reference functions written from the
specification's words, to be compared with the source functions above.
-/

mutual

/-- Some node of the tree (window or container) carries this id. -/
def containsId : SnapNode → String → Prop
  | .window i _ _, t => i = t
  | .container i _ _ cs _, t => i = t ∨ listContainsId cs t

/-- Some node of one of these trees carries this id. -/
def listContainsId : List SnapNode → String → Prop
  | [], _ => False
  | c :: cs, t => containsId c t ∨ listContainsId cs t

end

mutual

/-- Some Window leaf of the tree carries this id. -/
def containsWindowId : SnapNode → String → Prop
  | .window i _ _, t => i = t
  | .container _ _ _ cs _, t => listContainsWindowId cs t

/-- Some Window leaf of one of these trees carries this id. -/
def listContainsWindowId : List SnapNode → String → Prop
  | [], _ => False
  | c :: cs, t => containsWindowId c t ∨ listContainsWindowId cs t

end

mutual

/-- Every container in the tree has exactly two children (the spec's
binary-tree invariant). -/
def binaryNode : SnapNode → Prop
  | .window _ _ _ => True
  | .container _ _ _ cs _ => cs.length = 2 ∧ binaryList cs

/-- Every container below one of these trees has exactly two children. -/
def binaryList : List SnapNode → Prop
  | [] => True
  | c :: cs => binaryNode c ∧ binaryList cs

end

/-- From the claim's words: two child rectangles exactly tile a parent
rectangle along a direction — origins align, the split axis's
widths/heights sum to the parent's, and the other axis's extents equal the
parent's (no gap, no overlap). -/
def tilesExactly (parent : Rect) (dir : Direction) (c0 c1 : Rect) : Prop :=
  match dir with
  | .horizontal =>
    c0.x = parent.x ∧ c0.y = parent.y ∧ c1.y = parent.y ∧
    c0.height = parent.height ∧ c1.height = parent.height ∧
    c1.x = parent.x + c0.width ∧ c0.width + c1.width = parent.width
  | .vertical =>
    c0.x = parent.x ∧ c0.y = parent.y ∧ c1.x = parent.x ∧
    c0.width = parent.width ∧ c1.width = parent.width ∧
    c1.y = parent.y + c0.height ∧ c0.height + c1.height = parent.height

mutual

/-- From the claim's words: every container of the tree has exactly two
children and the two children's bounds exactly tile the container's
bounds. -/
def containersOk : SnapNode → Prop
  | .window _ _ _ => True
  | .container _ dir _ cs b =>
    (match cs with
     | [c0, c1] => tilesExactly b dir c0.bounds c1.bounds
     | _ => False) ∧ listContainersOk cs

/-- `containersOk` for every tree in the list. -/
def listContainersOk : List SnapNode → Prop
  | [] => True
  | c :: cs => containersOk c ∧ listContainersOk cs

end

/-- From the claim's words for `insertAdjacent`: the origin-aligned half of
a rectangle split along an axis. -/
def specFirstHalf (dir : Direction) (b : Rect) : Rect :=
  match dir with
  | .horizontal => ⟨b.x, b.y, b.width / 2, b.height⟩
  | .vertical => ⟨b.x, b.y, b.width, b.height / 2⟩

/-- From the claim's words for `insertAdjacent`: the far half of a rectangle
split along an axis. -/
def specSecondHalf (dir : Direction) (b : Rect) : Rect :=
  match dir with
  | .horizontal => ⟨b.x + b.width / 2, b.y, b.width / 2, b.height⟩
  | .vertical => ⟨b.x, b.y + b.height / 2, b.width, b.height / 2⟩

mutual

/-- Modelled from the claim's words (C1): `insertAdjacent` replaces the
Window node carrying `targetId`, wherever it occurs and at any depth, by a
fresh two-child container holding the new window and the original window,
each taking one half of the original window's bounds along the side's axis
(the new window takes the side's half and is first child iff the side is
left or top); every node outside a replaced subtree, and its bounds, is
unchanged. -/
def insertAdjacentSpec (freshId targetId : String) (newWindow : WindowData)
    (side : Side) : SnapNode → SnapNode
  | .window lid w b =>
    if lid = targetId then
      let d := sideDirection side
      let newNode := SnapNode.window newWindow.id newWindow
        (if sideIsFirst side then specFirstHalf d b else specSecondHalf d b)
      let origNode := SnapNode.window lid w
        (if sideIsFirst side then specSecondHalf d b else specFirstHalf d b)
      SnapNode.container freshId d (1/2)
        (if sideIsFirst side then [newNode, origNode] else [origNode, newNode]) b
    else .window lid w b
  | .container cid d r cs b =>
    .container cid d r (insertAdjacentSpecList freshId targetId newWindow side cs) b

/-- `insertAdjacentSpec` mapped over a child list. -/
def insertAdjacentSpecList (freshId targetId : String) (newWindow : WindowData)
    (side : Side) : List SnapNode → List SnapNode
  | [] => []
  | c :: cs =>
    insertAdjacentSpec freshId targetId newWindow side c
      :: insertAdjacentSpecList freshId targetId newWindow side cs

end

/-- Modelled from the claim's words (C4): `insertAtEdge` on a non-null tree
wraps the entire current tree as one sibling and the new window as the
other inside a fresh container — direction Horizontal for left/right and
Vertical for top/bottom, new window first child iff the side is left or
top — and recomputes both children's bounds as an exact half-split of the
container's bounds, which are the full viewport. -/
def insertAtEdgeSpec (freshId : String) (t : SnapNode) (wd : WindowData)
    (side : Side) (containerRect : Rect) : SnapNode :=
  let d := sideDirection side
  let full : Rect := ⟨0, 0, containerRect.width, containerRect.height⟩
  let newNode := SnapNode.window wd.id wd
    (if sideIsFirst side then specFirstHalf d full else specSecondHalf d full)
  let wrapped := t.setBounds
    (if sideIsFirst side then specSecondHalf d full else specFirstHalf d full)
  SnapNode.container freshId d (1/2)
    (if sideIsFirst side then [newNode, wrapped] else [wrapped, newNode]) full

/-- One tree-mutating operation, for stating reachability: an edge snap, an
adjacent snap, or a removal. -/
inductive LayoutOp where
  | edge (freshId : String) (wd : WindowData) (side : Side)
  | adjacent (freshId targetId : String) (wd : WindowData) (side : Side)
  | removal (i : String)

/-- Apply one operation to the tree, as the component does: `executeSnap`'s
two branches and `deleteSnappedWindow`'s `removeNodeById`. -/
def applyOp (containerRect : Rect) (tree : Option SnapNode) :
    LayoutOp → Option SnapNode
  | .edge f wd side => some (insertAtEdge f tree wd side containerRect)
  | .adjacent f tid wd side => snapToExistingWindowTop f tid wd side tree
  | .removal i => removeNodeByIdTop tree i

/-- Run a sequence of operations starting from the empty (null) tree. -/
def runOps (containerRect : Rect) (ops : List LayoutOp) : Option SnapNode :=
  ops.foldl (applyOp containerRect) none

mutual

/-- Induction on a `SnapNode`, with an auxiliary motive for child lists. -/
def SnapNode.inductionOn (motive : SnapNode → Prop)
    (motiveL : List SnapNode → Prop)
    (hw : ∀ i w b, motive (.window i w b))
    (hc : ∀ i d r cs b, motiveL cs → motive (.container i d r cs b))
    (hnil : motiveL [])
    (hcons : ∀ c cs, motive c → motiveL cs → motiveL (c :: cs)) :
    ∀ n, motive n
  | .window i w b => hw i w b
  | .container i d r cs b =>
    hc i d r cs b (SnapNode.listInductionOn motive motiveL hw hc hnil hcons cs)

/-- Induction on a list of `SnapNode`s, mutual with `SnapNode.inductionOn`. -/
def SnapNode.listInductionOn (motive : SnapNode → Prop)
    (motiveL : List SnapNode → Prop)
    (hw : ∀ i w b, motive (.window i w b))
    (hc : ∀ i d r cs b, motiveL cs → motive (.container i d r cs b))
    (hnil : motiveL [])
    (hcons : ∀ c cs, motive c → motiveL cs → motiveL (c :: cs)) :
    ∀ cs, motiveL cs
  | [] => hnil
  | c :: cs =>
    hcons c cs (SnapNode.inductionOn motive motiveL hw hc hnil hcons c)
      (SnapNode.listInductionOn motive motiveL hw hc hnil hcons cs)

end

/-- Concrete window payloads for the worked examples. -/
def wA : WindowData := ⟨"a", "red", "Window A"⟩

def wB : WindowData := ⟨"b", "green", "Window B"⟩

def wC : WindowData := ⟨"c", "blue", "Window C"⟩

def wT : WindowData := ⟨"t", "teal", "Window T"⟩

def wX : WindowData := ⟨"x", "gray", "Window X"⟩

def wY : WindowData := ⟨"y", "yellow", "Window Y"⟩

/-- A node that contains no window leaf with the target id is returned by
`snapToExistingWindow` unchanged — in particular all its bounds are
untouched. -/
theorem snapToExistingWindow_not_contained (f tid : String) (nw : WindowData)
    (sd : Side) :
    ∀ n, ¬ containsWindowId n tid → snapToExistingWindow f tid nw sd n = n := by
  refine SnapNode.inductionOn
    (fun n => ¬ containsWindowId n tid → snapToExistingWindow f tid nw sd n = n)
    (fun cs => ¬ listContainsWindowId cs tid → snapChildren f tid nw sd cs = cs)
    ?_ ?_ ?_ ?_
  · intro i w b h
    simp only [containsWindowId] at h
    simp [snapToExistingWindow, h]
  · intro i d r cs b ih h
    simp only [containsWindowId] at h
    simp [snapToExistingWindow, ih h]
  · intro _
    simp [snapChildren]
  · intro c cs ihc ihcs h
    simp only [listContainsWindowId] at h
    push_neg at h
    simp [snapChildren, ihc h.1, ihcs h.2]

/-- `snapToExistingWindow` computes exactly the claim-side replacement
function `insertAdjacentSpec`. -/
theorem snapToExistingWindow_eq_spec (f tid : String) (nw : WindowData)
    (sd : Side) :
    ∀ n, snapToExistingWindow f tid nw sd n = insertAdjacentSpec f tid nw sd n := by
  refine SnapNode.inductionOn
    (fun n => snapToExistingWindow f tid nw sd n = insertAdjacentSpec f tid nw sd n)
    (fun cs => snapChildren f tid nw sd cs = insertAdjacentSpecList f tid nw sd cs)
    ?_ ?_ ?_ ?_
  · intro i w b
    by_cases h : i = tid
    · cases sd <;>
        simp [snapToExistingWindow, insertAdjacentSpec, h, sideIsFirst,
          sideDirection, child0Rect, child1Rect, specFirstHalf, specSecondHalf]
    · simp [snapToExistingWindow, insertAdjacentSpec, h]
  · intro i d r cs b ih
    simp [snapToExistingWindow, insertAdjacentSpec, ih]
  · simp [snapChildren, insertAdjacentSpecList]
  · intro c cs ihc ihcs
    simp [snapChildren, insertAdjacentSpecList, ihc, ihcs]

/-- A node whose subtree does not carry the id at all has `node.id ≠ id`. -/
theorem nodeId_ne_of_not_containsId {c : SnapNode} {i : String}
    (h : ¬ containsId c i) : ¬ c.nodeId = i := by
  cases c <;> simp only [containsId, SnapNode.nodeId] at * <;> tauto

/-- A node that does not carry the removed id anywhere, in a tree where
every container has two children, is returned by `removeNodeById`
unchanged. -/
theorem removeNodeById_not_contained (i : String) :
    ∀ n, ¬ containsId n i → binaryNode n → removeNodeById n i = some n := by
  refine SnapNode.inductionOn
    (fun n => ¬ containsId n i → binaryNode n → removeNodeById n i = some n)
    (fun cs => ¬ listContainsId cs i → binaryList cs → removeChildren cs i = cs)
    ?_ ?_ ?_ ?_
  · intro nid w b h _
    simp only [containsId] at h
    simp [removeNodeById, h]
  · intro nid d r cs b ih h hb
    simp only [containsId] at h
    push_neg at h
    simp only [binaryNode] at hb
    obtain ⟨c0, c1, rfl⟩ := List.length_eq_two.mp hb.1
    simp [removeNodeById, ih h.2 hb.2]
  · intro _ _
    simp [removeChildren]
  · intro c cs ihc ihcs h hb
    simp only [listContainsId] at h
    push_neg at h
    simp only [binaryList] at hb
    simp [removeChildren, nodeId_ne_of_not_containsId h.1, ihc h.1 hb.1,
      ihcs h.2 hb.2]

/-- The worked tree of the claim: `A` at `{0,0,400,600}` and `B` at
`{400,0,400,600}` inside a root container covering 800×600. -/
def demoAB : SnapNode :=
  .container "p" .horizontal (1/2)
    [.window "a" wA ⟨0, 0, 400, 600⟩, .window "b" wB ⟨400, 0, 400, 600⟩]
    ⟨0, 0, 800, 600⟩

/-- The expected result of `insertAdjacent(demoAB, "a", C, top)`: `A`'s slot
replaced by a container with `C` at `{0,0,400,300}` and `A` at
`{0,300,400,300}`, `B` untouched. -/
def demoABafter : SnapNode :=
  .container "p" .horizontal (1/2)
    [.container "k" .vertical (1/2)
      [.window "c" wC ⟨0, 0, 400, 300⟩, .window "a" wA ⟨0, 300, 400, 300⟩]
      ⟨0, 0, 400, 600⟩,
     .window "b" wB ⟨400, 0, 400, 600⟩]
    ⟨0, 0, 800, 600⟩

/-- C1: `insertAdjacent` (the source's `snapToExistingWindow`) replaces the
Window node carrying `targetId` wherever it occurs, at any depth, by a fresh
two-child container splitting the original window's bounds in half along the
side's axis, and leaves every node not containing the target — bounds
included — unchanged; in particular, on a container holding `A` at
`{0,0,400,600}` and `B` at `{400,0,400,600}`, snapping `C` on top of `A`
puts `C` at `{0,0,400,300}` and `A` at `{0,300,400,300}` while `B` keeps
`{400,0,400,600}`. -/
theorem C1_insertAdjacent_replaces_at_any_depth :
    (∀ (f tid : String) (nw : WindowData) (sd : Side) (n : SnapNode),
      snapToExistingWindow f tid nw sd n = insertAdjacentSpec f tid nw sd n)
    ∧ (∀ (f tid : String) (nw : WindowData) (sd : Side) (n : SnapNode),
      ¬ containsWindowId n tid → snapToExistingWindow f tid nw sd n = n)
    ∧ snapToExistingWindowTop "k" "a" wC Side.top (some demoAB) = some demoABafter := by
  refine ⟨fun f tid nw sd n => snapToExistingWindow_eq_spec f tid nw sd n,
    fun f tid nw sd n h => snapToExistingWindow_not_contained f tid nw sd n h, ?_⟩
  norm_num [snapToExistingWindowTop, snapToExistingWindow, snapChildren,
    demoAB, demoABafter, wA, wB, wC, sideIsFirst, sideDirection, child0Rect,
    child1Rect]
  simp

/-- Witness for C1: a window leaf that does not carry the target id is
returned by `insertAdjacent` unchanged, bounds included. -/
theorem C1_witness :
    snapToExistingWindow "k" "zz" wC Side.top (.window "b" wB ⟨0, 0, 100, 100⟩)
      = .window "b" wB ⟨0, 0, 100, 100⟩ :=
  C1_insertAdjacent_replaces_at_any_depth.2.1 "k" "zz" wC Side.top
    (.window "b" wB ⟨0, 0, 100, 100⟩) (by simp [containsWindowId])

/-- A nested tree where removing id `"x"` empties the inner container:
both inner children carry id `"x"`, so the removal deletes the inner
container entirely and the promotion cascades to the outer level. -/
def cascadeTree : SnapNode :=
  .container "q" .vertical (1/2)
    [.container "inner" .horizontal (1/2)
      [.window "x" wX ⟨0, 0, 200, 300⟩, .window "x" wX ⟨200, 0, 200, 300⟩]
      ⟨0, 0, 400, 600⟩,
     .window "y" wY ⟨400, 0, 400, 600⟩]
    ⟨0, 0, 800, 600⟩

/-- C2: removing a Window that is one child of a two-child Container (in
either position) replaces the Container by the remaining child, whose
bounds become exactly the Container's former bounds — not its former
half-bounds; and when a removal empties a nested Container the promotion
cascades upward: on `cascadeTree`, removing `"x"` deletes the inner
container and promotes `"y"` all the way to the outer container's 800×600
bounds. -/
theorem C2_remove_promotes_remaining_child :
    (∀ (i : String) (w : WindowData) (wb : Rect) (other : SnapNode)
        (cid : String) (d : Direction) (r : ℚ) (b : Rect),
      ¬ containsId other i → binaryNode other →
      removeNodeById (.container cid d r [.window i w wb, other] b) i
          = some (other.setBounds b)
        ∧ removeNodeById (.container cid d r [other, .window i w wb] b) i
          = some (other.setBounds b)
        ∧ (other.setBounds b).bounds = b)
    ∧ removeNodeById cascadeTree "x" = some (.window "y" wY ⟨0, 0, 800, 600⟩) := by
  constructor
  · intro i w wb other cid d r b h hb
    have hne := nodeId_ne_of_not_containsId h
    have hrm := removeNodeById_not_contained i other h hb
    have hch1 : removeChildren [SnapNode.window i w wb, other] i = [other] := by
      cases other <;> simp only [SnapNode.nodeId] at hne <;>
        simp [removeChildren, SnapNode.nodeId, hne, hrm]
    have hch2 : removeChildren [other, SnapNode.window i w wb] i = [other] := by
      cases other <;> simp only [SnapNode.nodeId] at hne <;>
        simp [removeChildren, SnapNode.nodeId, hne, hrm]
    exact ⟨by simp [removeNodeById, hch1], by simp [removeNodeById, hch2],
      by cases other <;> rfl⟩
  · simp [cascadeTree, removeNodeById, removeChildren, SnapNode.nodeId,
      SnapNode.setBounds]

/-- Witness for C2: removing `A` from a container holding `A` and `B`
side by side promotes `B` to the container's full 800×600 bounds. -/
theorem C2_witness :
    removeNodeById
        (.container "p" .horizontal (1/2)
          [.window "a" wA ⟨0, 0, 400, 600⟩, .window "b" wB ⟨400, 0, 400, 600⟩]
          ⟨0, 0, 800, 600⟩) "a"
      = some (.window "b" wB ⟨0, 0, 800, 600⟩) :=
  (C2_remove_promotes_remaining_child.1 "a" wA ⟨0, 0, 400, 600⟩
    (.window "b" wB ⟨400, 0, 400, 600⟩) "p" .horizontal (1/2) ⟨0, 0, 800, 600⟩
    (by simp [containsId]) (by simp [binaryNode])).1

/-- Three successive edge snaps into an 800×600 viewport: `A` to the left,
`B` to the right, `C` to the top. -/
def demoOps : List LayoutOp :=
  [.edge "f1" wA .left, .edge "f2" wB .right, .edge "f3" wC .top]

/-- The tree the source produces for `demoOps`: the third snap wraps the
old root and overwrites only its top-level bounds (to the bottom half
`{0,300,800,300}`), leaving `A` and `B` at their stale full-height
bounds. -/
def badTree : SnapNode :=
  .container "f3" .vertical (1/2)
    [.window "c" wC ⟨0, 0, 800, 300⟩,
     .container "f2" .horizontal (1/2)
       [.window "a" wA ⟨0, 0, 400, 600⟩, .window "b" wB ⟨400, 0, 400, 600⟩]
       ⟨0, 300, 800, 300⟩]
    ⟨0, 0, 800, 600⟩

/-- C3 fails on the code: after the reachable sequence `demoOps` (three
edge snaps from the empty tree) the inner container's children do not tile
its bounds — `A` still sits at `{0,0,400,600}` inside a parent whose bounds
are `{0,300,800,300}` — because `insertAtEdge` never recomputes the bounds
of the wrapped subtree's descendants.  This is the repository's own known
bug ("The other windows are not growing and shrinking properly"). -/
theorem C3_tiling_invariant_fails_on_reachable_tree :
    runOps ⟨0, 0, 800, 600⟩ demoOps = some badTree ∧ ¬ containersOk badTree := by
  constructor
  · norm_num [runOps, demoOps, applyOp, insertAtEdge, getWindowConfig,
      sideDirection, sideIsFirst, badTree, SnapNode.setBounds]
    simp [wA, wB, wC]
  · simp only [badTree, containersOk, listContainersOk, tilesExactly,
      SnapNode.bounds]
    norm_num

/-- C4: `insertAtEdge` on a non-null tree computes exactly the claim-side
wrap `insertAtEdgeSpec`: a fresh container over the whole current tree and
the new window, direction Horizontal for left/right and Vertical for
top/bottom, new window first child iff the side is left or top, both
children's bounds an exact half-split of the container's full-viewport
bounds. -/
theorem C4_insertAtEdge_wraps_whole_tree :
    ∀ (f : String) (t : SnapNode) (wd : WindowData) (side : Side) (rect : Rect),
      insertAtEdge f (some t) wd side rect = insertAtEdgeSpec f t wd side rect := by
  intro f t wd side rect
  cases side <;>
    simp [insertAtEdge, insertAtEdgeSpec, sideDirection, sideIsFirst,
      getWindowConfig, specFirstHalf, specSecondHalf]

/-- Counterexample to C5: snapping the first window `A` to the left edge of
an 800×600 viewport makes it the sole root, but with bounds `{0,0,400,600}`
— the left half-viewport from `getWindowConfig` — not the full viewport
`{0,0,800,600}` the claim requires. -/
theorem C5_counterexample :
    insertAtEdge "f" none wA Side.left ⟨0, 0, 800, 600⟩
        = .window "a" wA ⟨0, 0, 400, 600⟩
      ∧ (SnapNode.window "a" wA ⟨0, 0, 400, 600⟩).bounds ≠ (⟨0, 0, 800, 600⟩ : Rect) := by
  constructor
  · norm_num [insertAtEdge, getWindowConfig, wA]
  · simp [SnapNode.bounds, Rect.mk.injEq]

/-- C5 amended: `insertAtEdge` on the empty tree makes the new window the
sole root, with bounds `getWindowConfig side viewport` — the half-viewport
rectangle for that side — rather than the full viewport. -/
theorem C5_amended_first_snap_gets_half_viewport :
    ∀ (f : String) (wd : WindowData) (side : Side) (rect : Rect),
      insertAtEdge f none wd side rect
        = .window wd.id wd (getWindowConfig side rect) := by
  intro f wd side rect
  rfl

/-- C6: a pointer within `SNAP_THRESHOLD` of a viewport edge makes the
resolver return that edge's half-viewport indicator with no `targetNodeId`,
whatever the tree holds — the edge checks run before the tree is searched,
in the order left, right, top, bottom; in particular a pointer at `(5,300)`
in an 800×600 viewport always yields the left indicator. -/
theorem C6_screen_edges_take_priority :
    (∀ (mx my : ℚ) (rect : Rect) (tree : Option SnapNode),
      mx ≤ SNAP_THRESHOLD →
        getSnapTarget mx my rect tree
          = some ⟨0, 0, rect.width / 2, rect.height, .left, none⟩)
    ∧ (∀ (mx my : ℚ) (rect : Rect) (tree : Option SnapNode),
      ¬ mx ≤ SNAP_THRESHOLD → mx ≥ rect.width - SNAP_THRESHOLD →
        getSnapTarget mx my rect tree
          = some ⟨rect.width / 2, 0, rect.width / 2, rect.height, .right, none⟩)
    ∧ (∀ (mx my : ℚ) (rect : Rect) (tree : Option SnapNode),
      ¬ mx ≤ SNAP_THRESHOLD → ¬ mx ≥ rect.width - SNAP_THRESHOLD →
      my ≤ SNAP_THRESHOLD →
        getSnapTarget mx my rect tree
          = some ⟨0, 0, rect.width, rect.height / 2, .top, none⟩)
    ∧ (∀ (mx my : ℚ) (rect : Rect) (tree : Option SnapNode),
      ¬ mx ≤ SNAP_THRESHOLD → ¬ mx ≥ rect.width - SNAP_THRESHOLD →
      ¬ my ≤ SNAP_THRESHOLD → my ≥ rect.height - SNAP_THRESHOLD →
        getSnapTarget mx my rect tree
          = some ⟨0, rect.height / 2, rect.width, rect.height / 2, .bottom, none⟩)
    ∧ (∀ tree : Option SnapNode,
      getSnapTarget 5 300 ⟨0, 0, 800, 600⟩ tree
        = some ⟨0, 0, 400, 600, .left, none⟩) := by
  refine ⟨?_, ?_, ?_, ?_, ?_⟩
  · intro mx my rect tree h
    simp [getSnapTarget, h]
  · intro mx my rect tree h1 h2
    simp [getSnapTarget, h1, h2]
  · intro mx my rect tree h1 h2 h3
    simp [getSnapTarget, h1, h2, h3]
  · intro mx my rect tree h1 h2 h3 h4
    simp [getSnapTarget, h1, h2, h3, h4]
  · intro tree
    norm_num [getSnapTarget, SNAP_THRESHOLD]

/-- Witness for C6: a pointer at `(0,100)` on the very left edge of an
800×600 viewport, with an empty tree, yields the left half-viewport
indicator with no target id. -/
theorem C6_witness :
    getSnapTarget 0 100 ⟨0, 0, 800, 600⟩ none
      = some ⟨0, 0, 400, 600, Side.left, none⟩ := by
  have h := C6_screen_edges_take_priority.1 0 100 ⟨0, 0, 800, 600⟩ none
    (by norm_num [SNAP_THRESHOLD])
  norm_num at h
  exact h

/-- C7: while a tiled window is dragged, once
`|clientX - downX| + |clientY - downY|` exceeds `DRAG_OUT_THRESHOLD` the
node is removed from the tree by the same `removeNodeById` used for
deletion (so the tree promotes/collapses identically), a floating window
with the node's payload appears at
`pointer - (MIN_WIDTH/2, HEADER_HEIGHT/2)` with size
`MIN_WIDTH × MIN_HEIGHT`, and the drag continues as a floating drag with
offset `(MIN_WIDTH/2, HEADER_HEIGHT/2)`. -/
theorem C7_drag_out_converts_to_floating :
    ∀ (cx cy : ℚ) (rect : Rect) (s : AppState) (dw : DraggedWindow)
      (nid : String) (w : WindowData) (nb : Rect),
      s.draggedWindow = some dw →
      dw.kind = DragKind.snapped →
      |cx - dw.offsetX| + |cy - dw.offsetY| > DRAG_OUT_THRESHOLD →
      findNodeByIdTop s.snappedLayout dw.id = some (.window nid w nb) →
      handleMouseMove cx cy rect s =
        { s with
          floatingWindows := s.floatingWindows ++
            [⟨w.id, w.color, w.title, cx - MIN_WIDTH / 2, cy - HEADER_HEIGHT / 2,
              MIN_WIDTH, MIN_HEIGHT⟩],
          snappedLayout := removeNodeByIdTop s.snappedLayout dw.id,
          draggedWindow := some ⟨dw.id, .floating, MIN_WIDTH / 2, HEADER_HEIGHT / 2⟩ } := by
  intro cx cy rect s dw nid w nb h1 h2 h3 h4
  simp [handleMouseMove, h1, h2, h3, h4]

/-- A concrete pre-drag state: `A` and `B` tiled side by side, `A`'s header
grabbed at `(10,10)`. -/
def demoState : AppState :=
  ⟨[], some demoAB, some ⟨"a", .snapped, 10, 10⟩, none⟩

/-- Witness for C7: dragging `A` to `(200,30)` (Manhattan displacement 210)
floats it at `(100,10)` with size 200×150, promotes `B` to the full
viewport, and the drag becomes a floating drag with offset `(100,20)`. -/
theorem C7_witness :
    handleMouseMove 200 30 ⟨0, 0, 800, 600⟩ demoState
      = ⟨[⟨"a", "red", "Window A", 100, 10, 200, 150⟩],
          some (.window "b" wB ⟨0, 0, 800, 600⟩),
          some ⟨"a", .floating, 100, 20⟩, none⟩ := by
  have h := C7_drag_out_converts_to_floating 200 30 ⟨0, 0, 800, 600⟩ demoState
    ⟨"a", .snapped, 10, 10⟩ "a" wA ⟨0, 0, 400, 600⟩ rfl rfl
    (by norm_num [DRAG_OUT_THRESHOLD])
    (by simp [demoState, demoAB, findNodeByIdTop, findNodeById, findInChildren,
      SnapNode.nodeId])
  rw [h]
  norm_num [demoState, demoAB, removeNodeByIdTop, removeNodeById,
    removeChildren, SnapNode.nodeId, SnapNode.setBounds, wA, MIN_WIDTH,
    MIN_HEIGHT, HEADER_HEIGHT]
  simp

/-- A commit state for C8: window `T` tiled as the whole tree, window `B`
floating and being dragged, and a stale indicator whose `targetNodeId`
`"zzz"` matches nothing in the tree. -/
def c8State : AppState :=
  ⟨[⟨"b", "green", "Window B", 100, 100, 200, 150⟩],
    some (.window "t" wT ⟨0, 0, 800, 600⟩),
    some ⟨"b", .floating, 5, 5⟩,
    some ⟨0, 0, 400, 600, .left, some "zzz"⟩⟩

/-- C8 fails on the code: committing a snap whose indicator carries a
`targetNodeId` that names no window in the tree leaves the tree unchanged,
but the dragged window is still unconditionally deleted from the floating
set — it vanishes instead of remaining floating as the claim requires. -/
theorem C8_invalid_target_loses_window :
    (handleMouseUp "f" ⟨0, 0, 800, 600⟩ c8State).snappedLayout
        = some (.window "t" wT ⟨0, 0, 800, 600⟩)
      ∧ (handleMouseUp "f" ⟨0, 0, 800, 600⟩ c8State).floatingWindows = [] := by
  constructor <;>
    simp [handleMouseUp, c8State, executeSnap, snapToExistingWindowTop,
      snapToExistingWindow, List.find?, List.filter]

/-- Unfolding of `findSnapTargetInNode` on a window leaf containing the
pointer: the dominant-axis decision tree of source lines 248-299. -/
theorem findSnapTargetInNode_window (nid : String) (w : WindowData) (b : Rect)
    (mx my : ℚ) (h1 : mx ≥ b.x) (h2 : mx ≤ b.x + b.width) (h3 : my ≥ b.y)
    (h4 : my ≤ b.y + b.height) :
    findSnapTargetInNode (.window nid w b) mx my =
      if b.width > b.height then
        if my - b.y ≤ SNAP_THRESHOLD then
          some ⟨b.x, b.y, b.width, b.height / 2, .top, some nid⟩
        else if my - b.y ≥ b.height - SNAP_THRESHOLD then
          some ⟨b.x, b.y + b.height / 2, b.width, b.height / 2, .bottom, some nid⟩
        else none
      else
        if mx - b.x ≤ SNAP_THRESHOLD then
          some ⟨b.x, b.y, b.width / 2, b.height, .left, some nid⟩
        else if mx - b.x ≥ b.width - SNAP_THRESHOLD then
          some ⟨b.x + b.width / 2, b.y, b.width / 2, b.height, .right, some nid⟩
        else none := by
  simp [findSnapTargetInNode, SnapNode.bounds, h1, h2, h3, h4]

/-- C9: on a Window leaf containing the pointer, the resolver uses the
leaf's dominant axis — wider-than-tall offers only top/bottom, taller-than-
wide offers only left/right — and within `SNAP_THRESHOLD` of the near or
far edge along that axis it returns the indicator covering the matching
half of the leaf, tagged with the leaf's id. -/
theorem C9_leaf_snapping_uses_dominant_axis :
    ∀ (nid : String) (w : WindowData) (b : Rect) (mx my : ℚ),
      mx ≥ b.x → mx ≤ b.x + b.width → my ≥ b.y → my ≤ b.y + b.height →
      ((b.width > b.height →
        (my - b.y ≤ SNAP_THRESHOLD →
          findSnapTargetInNode (.window nid w b) mx my
            = some ⟨b.x, b.y, b.width, b.height / 2, .top, some nid⟩)
        ∧ (¬ my - b.y ≤ SNAP_THRESHOLD → my - b.y ≥ b.height - SNAP_THRESHOLD →
          findSnapTargetInNode (.window nid w b) mx my
            = some ⟨b.x, b.y + b.height / 2, b.width, b.height / 2, .bottom, some nid⟩)
        ∧ (∀ ind : SnapIndicator,
          findSnapTargetInNode (.window nid w b) mx my = some ind →
            ind.side = Side.top ∨ ind.side = Side.bottom))
      ∧ (b.height > b.width →
        (mx - b.x ≤ SNAP_THRESHOLD →
          findSnapTargetInNode (.window nid w b) mx my
            = some ⟨b.x, b.y, b.width / 2, b.height, .left, some nid⟩)
        ∧ (¬ mx - b.x ≤ SNAP_THRESHOLD → mx - b.x ≥ b.width - SNAP_THRESHOLD →
          findSnapTargetInNode (.window nid w b) mx my
            = some ⟨b.x + b.width / 2, b.y, b.width / 2, b.height, .right, some nid⟩)
        ∧ (∀ ind : SnapIndicator,
          findSnapTargetInNode (.window nid w b) mx my = some ind →
            ind.side = Side.left ∨ ind.side = Side.right))) := by
  intro nid w b mx my h1 h2 h3 h4
  rw [findSnapTargetInNode_window nid w b mx my h1 h2 h3 h4]
  constructor
  · intro hwt
    refine ⟨fun ht => by simp [hwt, ht], fun ht hb2 => by simp [hwt, ht, hb2], ?_⟩
    intro ind hind
    rw [if_pos hwt] at hind
    split_ifs at hind <;> simp only [Option.some.injEq] at hind <;>
      simp [← hind]
  · intro hth
    have hwt : ¬ b.width > b.height := not_lt_of_gt hth
    refine ⟨fun ht => by simp [hwt, ht], fun ht hb2 => by simp [hwt, ht, hb2], ?_⟩
    intro ind hind
    rw [if_neg hwt] at hind
    split_ifs at hind <;> simp only [Option.some.injEq] at hind <;>
      simp [← hind]

/-- Witness for C9: a wide 400×100 leaf at the origin with the pointer at
`(200,10)` — near its top edge — yields the top-half indicator tagged with
the leaf's id. -/
theorem C9_witness :
    findSnapTargetInNode (.window "t" wT ⟨0, 0, 400, 100⟩) 200 10
      = some ⟨0, 0, 400, 50, Side.top, some "t"⟩ := by
  have h := ((C9_leaf_snapping_uses_dominant_axis "t" wT ⟨0, 0, 400, 100⟩ 200 10
    (by norm_num) (by norm_num) (by norm_num) (by norm_num)).1
    (by norm_num)).1 (by norm_num [SNAP_THRESHOLD])
  norm_num at h
  exact h

/-- C10: a Window leaf with exactly square bounds is treated as
not-wider-than-tall (`width > height` is false on a tie), so the resolver
only ever offers left/right indicators on it, never top/bottom. -/
theorem C10_square_leaf_offers_only_left_right :
    ∀ (nid : String) (w : WindowData) (b : Rect) (mx my : ℚ)
      (ind : SnapIndicator),
      b.width = b.height →
      findSnapTargetInNode (.window nid w b) mx my = some ind →
      ind.side = Side.left ∨ ind.side = Side.right := by
  intro nid w b mx my ind hsq hind
  have hwt : ¬ b.width > b.height := by rw [hsq]; exact lt_irrefl _
  simp only [findSnapTargetInNode, SnapNode.bounds] at hind
  split_ifs at hind <;> simp only [Option.some.injEq] at hind <;>
    first
      | exact absurd (by assumption) hwt
      | simp [← hind]

/-- Witness for C10: on a square 100×100 leaf with the pointer at `(5,50)`
the resolver returns a left indicator, whose side is indeed left or
right. -/
theorem C10_witness :
    (⟨0, 0, 50, 100, Side.left, some "s"⟩ : SnapIndicator).side = Side.left
      ∨ (⟨0, 0, 50, 100, Side.left, some "s"⟩ : SnapIndicator).side = Side.right :=
  C10_square_leaf_offers_only_left_right "s" wT ⟨0, 0, 100, 100⟩ 5 50
    ⟨0, 0, 50, 100, Side.left, some "s"⟩ rfl
    (by norm_num [findSnapTargetInNode, SnapNode.bounds, SNAP_THRESHOLD])

end WindowTiler
